import Mathlib

/- Shallow embedding of the two RPN calculator variants of this repository:
   src/rcalc.rs (the unit-aware calculator, namespace RCalc) and src/calc.rs
   (the simple calculator, namespace SCalc).

   Modelling conventions:
   - Rust f64 values are modelled as exact rationals; decimal literals of the
     source become the corresponding rationals. Division by zero yields 0 in
     the rational model where IEEE arithmetic yields an infinity or NaN.
   - Rust strings are modelled as Lean strings, viewed as their character
     lists; byte/character distinctions of UTF-8 are abstracted away (all unit
     suffixes and operator tokens in the program are ASCII).
   - Mutating methods become state-passing functions; eprintln output is
     returned as a list of stderr lines; println-then-exit and panics become
     dedicated result constructors. -/

/-- Numeric value of a list of decimal digit characters, most significant
first (0 for the empty list). -/
def digitsVal (l : List Char) : Nat :=
  l.foldl (fun acc c => 10 * acc + (c.toNat - 48)) 0

/-- An optionally signed nonempty run of decimal digits, as used in the
exponent part of Rust's float grammar. -/
def parseSignedDigits (l : List Char) : Option Int :=
  match l with
  | '+' :: r => if !r.isEmpty && r.all Char.isDigit then some ((digitsVal r : Int)) else none
  | '-' :: r => if !r.isEmpty && r.all Char.isDigit then some (-((digitsVal r : Int))) else none
  | r => if !r.isEmpty && r.all Char.isDigit then some ((digitsVal r : Int)) else none

/-- The optional exponent suffix of Rust's float grammar: either nothing, or
the letter e or E followed by an optionally signed nonempty digit run. -/
def parseExp (l : List Char) : Option Int :=
  match l with
  | [] => some 0
  | 'e' :: r => parseSignedDigits r
  | 'E' :: r => parseSignedDigits r
  | _ => none

/-- Mantissa of Rust's float grammar: digits, digits followed by a point and
optional further digits, or a point followed by digits.  Returns the value
together with the unconsumed remainder of the input. -/
def parseMantissa (l : List Char) : Option (ℚ × List Char) :=
  let ip := l.takeWhile Char.isDigit
  let rest := l.dropWhile Char.isDigit
  match rest with
  | '.' :: r2 =>
    let fp := r2.takeWhile Char.isDigit
    let r3 := r2.dropWhile Char.isDigit
    if ip.isEmpty && fp.isEmpty then none
    else some ((digitsVal ip : ℚ) + (digitsVal fp : ℚ) / (10 : ℚ) ^ fp.length, r3)
  | _ => if ip.isEmpty then none else some ((digitsVal ip : ℚ), rest)

/-- Mantissa followed by an optional exponent, consuming the whole input. -/
def parseUnsigned (l : List Char) : Option ℚ :=
  match parseMantissa l with
  | some (m, r) =>
    match parseExp r with
    | some e => some (m * (10 : ℚ) ^ e)
    | none => none
  | none => none

/-- Model of Rust's str::parse::<f64> on the finite-value fragment of its
grammar: an optional sign, then digits with optional fractional part and
optional exponent, yielding the exact rational value.  The special forms
inf, infinity and NaN accepted by Rust have no rational counterpart and are
outside this model; no token examined by the theorems below uses them. -/
def parseF64 (s : String) : Option ℚ :=
  match s.data with
  | '+' :: r => parseUnsigned r
  | '-' :: r => (parseUnsigned r).map (fun q => -q)
  | l => parseUnsigned l

/-- Length of a string, in characters (models str::len of the ASCII tokens
the program manipulates). -/
def strLen (s : String) : Nat := s.data.length

/-- First n characters of a string: the left half of str::split_at. -/
def strTake (s : String) (n : Nat) : String := String.mk (s.data.take n)

/-- All but the first n characters of a string: the right half of
str::split_at. -/
def strDrop (s : String) (n : Nat) : String := String.mk (s.data.drop n)

namespace RCalc

/-- The Unit struct of src/rcalc.rs: a numeric value, numerator and
denominator unit labels, and a conversion factor to a base unit. -/
structure Unit where
  value : ℚ
  numerator : String
  denominator : String
  factor : ℚ
deriving DecidableEq

/-- Unit::new from src/rcalc.rs. -/
def Unit.new (value : ℚ) (numerator denominator : String) (factor : ℚ) : Unit :=
  ⟨value, numerator, denominator, factor⟩

/-- Unit::convert from src/rcalc.rs (lines 21-34): label-merge of numerators
and denominators and a relative rescale of the value. -/
def Unit.convert (self other : Unit) : ℚ × String × String :=
  let numerator :=
    if self.numerator = other.numerator then other.numerator
    else other.numerator ++ self.numerator
  let denominator :=
    if self.denominator = other.denominator then other.denominator
    else self.denominator ++ other.denominator
  let factor := other.factor * self.factor
  (self.value * factor / other.value, numerator, denominator)

/-- The Calculator struct of src/rcalc.rs.  The stack is a list whose head is
the top (Vec push/pop act at the same end); the HashMap of conversions is an
association list with the eight unique keys inserted by main. -/
structure Calculator where
  stack : List Unit
  conversions : List (String × ℚ)
deriving DecidableEq

/-- HashMap::get on the association list of conversions. -/
def lookupConv : List (String × ℚ) → String → Option ℚ
  | [], _ => none
  | (k, v) :: rest, s => if s = k then some v else lookupConv rest s

/-- Calculator::new from src/rcalc.rs. -/
def Calculator.new (conversions : List (String × ℚ)) : Calculator :=
  ⟨[], conversions⟩

/-- Calculator::push from src/rcalc.rs. -/
def Calculator.push (c : Calculator) (value : ℚ) (numerator denominator : String)
    (factor : ℚ) : Calculator :=
  ⟨Unit.new value numerator denominator factor :: c.stack, c.conversions⟩

/-- Calculator::pop from src/rcalc.rs. -/
def Calculator.pop (c : Calculator) : Option (Unit × Calculator) :=
  match c.stack with
  | [] => none
  | u :: rest => some (u, ⟨rest, c.conversions⟩)

/-- Calculator::add from src/rcalc.rs.  Rust evaluates the tuple
(self.pop(), self.pop()) in full before matching it, so when only one
operand is present that operand has already been removed when the pattern
fails: the nested match below keeps the once-popped state in that branch.
Returns the new state and the emitted stderr lines. -/
def Calculator.add (c : Calculator) : Calculator × List String :=
  match c.pop with
  | none => (c, ["Error: not enough operands"])
  | some (a, c1) =>
    match c1.pop with
    | none => (c1, ["Error: not enough operands"])
    | some (b, c2) =>
      match b.convert a with
      | (value, numerator, denominator) =>
        (c2.push value numerator denominator a.factor, [])

/-- Calculator::sub from src/rcalc.rs; its body is textually identical to
Calculator::add. -/
def Calculator.sub (c : Calculator) : Calculator × List String :=
  match c.pop with
  | none => (c, ["Error: not enough operands"])
  | some (a, c1) =>
    match c1.pop with
    | none => (c1, ["Error: not enough operands"])
    | some (b, c2) =>
      match b.convert a with
      | (value, numerator, denominator) =>
        (c2.push value numerator denominator a.factor, [])

/-- Calculator::mul from src/rcalc.rs. -/
def Calculator.mul (c : Calculator) : Calculator × List String :=
  match c.pop with
  | none => (c, ["Error: not enough operands"])
  | some (a, c1) =>
    match c1.pop with
    | none => (c1, ["Error: not enough operands"])
    | some (b, c2) =>
      (c2.push (a.value * b.value) (a.numerator ++ b.numerator)
        (a.denominator ++ b.denominator) (a.factor * b.factor), [])

/-- Calculator::div from src/rcalc.rs. -/
def Calculator.div (c : Calculator) : Calculator × List String :=
  match c.pop with
  | none => (c, ["Error: not enough operands"])
  | some (a, c1) =>
    match c1.pop with
    | none => (c1, ["Error: not enough operands"])
    | some (b, c2) =>
      (c2.push (b.value / a.value) (a.denominator ++ b.numerator)
        (a.numerator ++ b.denominator) (b.factor / a.factor), [])

/-- Modelled from the spec: the body of Calculator::mean in src/rcalc.rs is
truncated in the source after the fold header (line 102), so this definition
follows spec section 4.2, which states the reference behaviour is the same
pattern as the simpler variant of src/calc.rs: sum all value fields, divide
by the count, clear the stack, and push one Unit carrying the average with
empty unit labels (the factor, unspecified there, is taken as 1 as for any
unitless push). -/
def Calculator.mean (c : Calculator) : Calculator :=
  let sum := c.stack.foldl (fun acc u => acc + u.value) 0
  ⟨[Unit.new (sum / (c.stack.length : ℚ)) "" "" 1], c.conversions⟩

/-- The conversion table built at the start of main in src/rcalc.rs, in
insertion order (keys are unique, so lookup order is immaterial). -/
def conversionsList : List (String × ℚ) :=
  [("km", 1000), ("m", 1), ("cm", 1/100), ("mm", 1/1000),
   ("mi", 1609344/1000), ("yd", 9144/10000), ("ft", 3048/10000), ("in", 254/10000)]

/-- Result of processing one argument in main's loop (src/rcalc.rs):
continue with a new state and some stderr lines, stop early (eprintln and
return from main), or panic. -/
inductive StepResult where
  | cont (p : Calculator × List String)
  | halt (err : String)
  | panicked
deriving DecidableEq

/-- One iteration of the argument loop of main in src/rcalc.rs.  A token
that is none of the five operator arms is parsed as a float and pushed; a
non-float token of length below two panics at split_at(len - 2) (an
arithmetic-underflow or out-of-bounds panic, depending on build profile);
otherwise the token is split before its last two characters and the suffix
looked up in the conversion table, an unknown suffix printing a diagnostic
and returning from main. -/
def step (cal : Calculator) (arg : String) : StepResult :=
  if arg = "+" then StepResult.cont cal.add
  else if arg = "-" then StepResult.cont cal.sub
  else if arg = "*" ∨ arg = "." then StepResult.cont cal.mul
  else if arg = "/" then StepResult.cont cal.div
  else if arg = "mean" then StepResult.cont (cal.mean, [])
  else
    match parseF64 arg with
    | some value => StepResult.cont (cal.push value "" "" 1, [])
    | none =>
      if strLen arg < 2 then StepResult.panicked
      else
        let numerator := strTake arg (strLen arg - 2)
        let denominator := strDrop arg (strLen arg - 2)
        match lookupConv cal.conversions denominator with
        | some factor => StepResult.cont (cal.push 1 numerator denominator factor, [])
        | none => StepResult.halt ("Error: unknown operator " ++ arg)

/-- Overall result of a run of main on an argument list: the loop finished
(the stack is then printed and the process exits with status 0), main
returned early on an unknown operator (status 0, nothing further printed),
or a panic aborted the process (nonzero status).  Each carries the stderr
lines emitted up to that point. -/
inductive RunResult where
  | finished (c : Calculator) (err : List String)
  | halted (err : List String)
  | panicked (err : List String)
deriving DecidableEq

/-- The argument loop of main in src/rcalc.rs over a token list. -/
def run (cal : Calculator) : List String → RunResult
  | [] => RunResult.finished cal []
  | arg :: rest =>
    match step cal arg with
    | StepResult.cont p =>
      match run p.1 rest with
      | RunResult.finished c2 e2 => RunResult.finished c2 (p.2 ++ e2)
      | RunResult.halted e2 => RunResult.halted (p.2 ++ e2)
      | RunResult.panicked e2 => RunResult.panicked (p.2 ++ e2)
    | StepResult.halt e => RunResult.halted [e]
    | StepResult.panicked => RunResult.panicked []

/-- Process exit status for each way main can end: both normal completion
and the early return of the unknown-operator arm fall off the end of main
and exit with status 0; a Rust panic aborts with the nonzero status 101. -/
def exitCode : RunResult → Nat
  | RunResult.finished _ _ => 0
  | RunResult.halted _ => 0
  | RunResult.panicked _ => 101

/-- Whether the final printing loop of main runs: only when the argument
loop finished normally; the early return and a panic both skip it, so those
runs produce no stdout at all. -/
def printsStack : RunResult → Bool
  | RunResult.finished _ _ => true
  | RunResult.halted _ => false
  | RunResult.panicked _ => false

end RCalc

namespace SCalc

/-- The ValueWithUnits struct of src/calc.rs. -/
structure ValueWithUnits where
  value : ℚ
  numerator : String
  denominator : String
deriving DecidableEq

/-- ValueWithUnits::new from src/calc.rs. -/
def ValueWithUnits.new (value : ℚ) (numerator denominator : String) : ValueWithUnits :=
  ⟨value, numerator, denominator⟩

/-- Truncation toward zero, as Rust float-to-remainder arithmetic uses. -/
def ftrunc (q : ℚ) : ℤ := if q < 0 then Int.ceil q else Int.floor q

/-- Rust's % on floats: the remainder a - b * trunc(a / b), in the rational
model. -/
def frem (a b : ℚ) : ℚ := a - b * ((ftrunc (a / b) : ℚ))

/-- Result of processing one argument in main's loop (src/calc.rs):
continue with a new stack, print a line to stdout and exit with status 1,
or panic (the expect calls on stack underflow). -/
inductive CalcStep where
  | cont (stack : List ValueWithUnits)
  | exit1 (line : String)
  | panicked
deriving DecidableEq

/-- One iteration of the argument loop of main in src/calc.rs.  The stack
list has its top at the head; in each operator arm the first pop is b and
the second a, so the head is b.  A token parsing as a float is pushed;
otherwise the operator match runs, with stack underflow panicking via
expect and the catch-all arm printing to stdout and exiting with status
1. -/
def step (stack : List ValueWithUnits) (arg : String) : CalcStep :=
  match parseF64 arg with
  | some num => CalcStep.cont (ValueWithUnits.new num "" "" :: stack)
  | none =>
    if arg = "+" then
      match stack with
      | b :: a :: rest =>
        CalcStep.cont (ValueWithUnits.new (a.value + b.value) a.numerator a.denominator :: rest)
      | _ => CalcStep.panicked
    else if arg = "-" then
      match stack with
      | b :: a :: rest =>
        CalcStep.cont (ValueWithUnits.new (a.value - b.value) a.numerator a.denominator :: rest)
      | _ => CalcStep.panicked
    else if arg = "*" ∨ arg = "." then
      match stack with
      | b :: a :: rest =>
        CalcStep.cont (ValueWithUnits.new (a.value * b.value)
          (a.numerator ++ " " ++ b.numerator)
          (a.denominator ++ " " ++ b.denominator) :: rest)
      | _ => CalcStep.panicked
    else if arg = "/" then
      match stack with
      | b :: a :: rest =>
        CalcStep.cont (ValueWithUnits.new (a.value / b.value)
          (a.numerator ++ " " ++ b.denominator)
          (a.denominator ++ " " ++ b.numerator) :: rest)
      | _ => CalcStep.panicked
    else if arg = "%" then
      match stack with
      | b :: a :: rest =>
        CalcStep.cont (ValueWithUnits.new (frem a.value b.value) "" "" :: rest)
      | _ => CalcStep.panicked
    else if arg = "mean" then
      CalcStep.cont
        [ValueWithUnits.new (((stack.map ValueWithUnits.value).sum) / ((stack.length : ℚ))) "" ""]
    else CalcStep.exit1 ("Unknown operator: " ++ arg)

end SCalc

/-- C1: Unit::convert returns the triple whose value is
self.value * (other.factor * self.factor) / other.value, whose numerator is
other.numerator when the numerators agree and otherwise the concatenation
other.numerator ++ self.numerator, and whose denominator is
self.denominator when the denominators agree and otherwise the
concatenation self.denominator ++ other.denominator. -/
theorem c1_convert_formula (self other : RCalc.Unit) :
    self.convert other
      = (self.value * (other.factor * self.factor) / other.value,
         (if self.numerator = other.numerator then other.numerator
          else other.numerator ++ self.numerator),
         (if self.denominator = other.denominator then self.denominator
          else self.denominator ++ other.denominator)) := by
  unfold RCalc.Unit.convert
  by_cases h : self.denominator = other.denominator <;> simp [h]

/-- C2: the claim that add() on a stack of fewer than two elements reports a
diagnostic and leaves the stack exactly as it was fails on the code for a
stack of size 1: Rust evaluates both pops of the tuple before the pattern
match, so the single element is removed and dropped.  With one pushed Unit,
add yields the empty stack together with the diagnostic; with the empty
stack it yields the unchanged empty stack and the diagnostic. -/
theorem c2_add_shortage_drops_top :
    RCalc.Calculator.add ⟨[RCalc.Unit.new 2 "" "" 1], RCalc.conversionsList⟩
      = (⟨[], RCalc.conversionsList⟩, ["Error: not enough operands"])
    ∧ RCalc.Calculator.add ⟨[], RCalc.conversionsList⟩
      = (⟨[], RCalc.conversionsList⟩, ["Error: not enough operands"]) :=
  ⟨rfl, rfl⟩

/-- C3: on the unknown token foo, the unit-aware main emits the diagnostic
naming the token to stderr and returns early, printing no stack — but the
early return of main exits with status 0, not a nonzero code; the simple
variant of src/calc.rs does exit with status 1, but prints its diagnostic
line to stdout. -/
theorem c3_unknown_token_behaviour :
    RCalc.run (RCalc.Calculator.new RCalc.conversionsList) ["foo"]
      = RCalc.RunResult.halted ["Error: unknown operator foo"]
    ∧ RCalc.exitCode (RCalc.run (RCalc.Calculator.new RCalc.conversionsList) ["foo"]) = 0
    ∧ RCalc.printsStack (RCalc.run (RCalc.Calculator.new RCalc.conversionsList) ["foo"]) = false
    ∧ SCalc.step [] "foo" = SCalc.CalcStep.exit1 ("Unknown operator: foo") :=
  ⟨rfl, rfl, rfl, rfl⟩

/-- C4: on a stack with at least two elements, div pops the top a and then
b, and pushes exactly one Unit with value b.value / a.value, numerator
a.denominator ++ b.numerator, denominator a.numerator ++ b.denominator and
factor b.factor / a.factor, emitting no diagnostic. -/
theorem c4_div_spec (cal : RCalc.Calculator) (a b : RCalc.Unit) (rest : List RCalc.Unit)
    (h : cal.stack = a :: b :: rest) :
    cal.div
      = (⟨RCalc.Unit.new (b.value / a.value) (a.denominator ++ b.numerator)
            (a.numerator ++ b.denominator) (b.factor / a.factor) :: rest,
          cal.conversions⟩, []) := by
  obtain ⟨st, conv⟩ := cal
  have h2 : st = a :: b :: rest := h
  subst h2
  rfl

/-- Witness for C4 at a concrete two-element stack. -/
theorem c4_div_spec_witness :
    RCalc.Calculator.div
        ⟨[RCalc.Unit.new 6 "km" "" 1000, RCalc.Unit.new 3 "" "s" 1], RCalc.conversionsList⟩
      = (⟨[RCalc.Unit.new (3 / 6) "" "kms" (1 / 1000)], RCalc.conversionsList⟩, []) := by
  exact c4_div_spec _ (RCalc.Unit.new 6 "km" "" 1000) (RCalc.Unit.new 3 "" "s" 1) [] rfl

/-- C5: a token that is no operator, parses as no float, and whose final
two characters are a key of the conversion table is pushed as a Unit whose
value is the literal 1 regardless of the prefix, whose numerator label is
the prefix before the final two characters, whose denominator label is that
suffix, and whose factor is the table value of the suffix. -/
theorem c5_unit_suffix_push (cal : RCalc.Calculator) (s : String) (factor : ℚ)
    (h1 : s ≠ "+") (h2 : s ≠ "-") (h3 : s ≠ "*") (h4 : s ≠ ".") (h5 : s ≠ "/")
    (h6 : s ≠ "mean") (hp : parseF64 s = none) (hl : 2 ≤ strLen s)
    (hc : RCalc.lookupConv cal.conversions (strDrop s (strLen s - 2)) = some factor) :
    RCalc.step cal s
      = RCalc.StepResult.cont
          (cal.push 1 (strTake s (strLen s - 2)) (strDrop s (strLen s - 2)) factor, []) := by
  have hnl : ¬ strLen s < 2 := by omega
  simp [RCalc.step, h1, h2, h3, h4, h5, h6, hp, hnl, hc]

/-- Witness for C5 at the token 1km: the pushed Unit has value 1, numerator
label 1, denominator label km and factor 1000. -/
theorem c5_unit_suffix_push_witness :
    RCalc.step (RCalc.Calculator.new RCalc.conversionsList) "1km"
      = RCalc.StepResult.cont
          ((RCalc.Calculator.new RCalc.conversionsList).push 1 "1" "km" 1000, []) := by
  exact c5_unit_suffix_push (RCalc.Calculator.new RCalc.conversionsList) "1km" 1000
    (by decide) (by decide) (by decide) (by decide) (by decide) (by decide)
    (by decide) (by decide) rfl

/-- C6: the claim that mean on an empty stack is explicitly guarded fails
on the code: the simple variant of src/calc.rs (whose pattern the spec says
the unit-aware mean follows) performs no emptiness check, computing
sum / count with count 0 (NaN in IEEE arithmetic) and pushing that single
result; on the nonempty stack 2, 4, 6 it does replace the stack with the
single arithmetic mean 4 with empty labels. -/
theorem c6_mean_empty_unguarded :
    SCalc.step [⟨2, "", ""⟩, ⟨4, "", ""⟩, ⟨6, "", ""⟩] "mean"
      = SCalc.CalcStep.cont [SCalc.ValueWithUnits.new 4 "" ""]
    ∧ SCalc.step [] "mean" = SCalc.CalcStep.cont [SCalc.ValueWithUnits.new ((0 : ℚ) / 0) "" ""] := by
  have hp : parseF64 "mean" = none := by decide
  constructor
  · simp [SCalc.step, hp, SCalc.ValueWithUnits.new]
    norm_num
  · simp [SCalc.step, hp, SCalc.ValueWithUnits.new]

/-- C7: Calculator::add and Calculator::sub are extensionally equal: on
every calculator state they return the same state and the same stderr
lines. -/
theorem c7_add_eq_sub (c : RCalc.Calculator) : c.add = c.sub := rfl

/-- C9: a token that is no operator, parses as no float, and is shorter
than two characters never reaches the unknown-operator diagnostic: the
split point len - 2 underflows (or indexes out of range), so classification
panics. -/
theorem c9_short_token_panics (cal : RCalc.Calculator) (s : String)
    (h1 : s ≠ "+") (h2 : s ≠ "-") (h3 : s ≠ "*") (h4 : s ≠ ".") (h5 : s ≠ "/")
    (h6 : s ≠ "mean") (hp : parseF64 s = none) (hl : strLen s < 2) :
    RCalc.step cal s = RCalc.StepResult.panicked := by
  simp [RCalc.step, h1, h2, h3, h4, h5, h6, hp, hl]

/-- Witness for C9 at the one-character token x. -/
theorem c9_short_token_panics_witness :
    RCalc.step (RCalc.Calculator.new RCalc.conversionsList) "x" = RCalc.StepResult.panicked := by
  exact c9_short_token_panics (RCalc.Calculator.new RCalc.conversionsList) "x"
    (by decide) (by decide) (by decide) (by decide) (by decide) (by decide)
    (by decide) (by decide)

/-- C10: suffix lookup keys on exactly the last two characters of the
token, so the one-character table entry m is unreachable: every key ever
looked up has two characters, hence differs from m, and the token 5m is
rejected as an unknown operator rather than pushed as metres. -/
theorem c10_m_entry_unreachable :
    (∀ s : String, 2 ≤ strLen s → strDrop s (strLen s - 2) ≠ "m")
    ∧ RCalc.step (RCalc.Calculator.new RCalc.conversionsList) "5m"
        = RCalc.StepResult.halt ("Error: unknown operator 5m") := by
  constructor
  · intro s hs heq
    have hs2 : 2 ≤ s.data.length := hs
    have hlen : (s.data.drop (s.data.length - 2)).length = 2 := by
      rw [List.length_drop]
      omega
    have hdata : (strDrop s (strLen s - 2)).data = s.data.drop (s.data.length - 2) := rfl
    rw [heq] at hdata
    rw [← hdata] at hlen
    exact absurd hlen (by decide)
  · rfl

/-- Witness for C10 at the token 5m: its looked-up suffix is not the table
entry m. -/
theorem c10_m_entry_unreachable_witness :
    strDrop "5m" (strLen "5m" - 2) ≠ "m" :=
  c10_m_entry_unreachable.1 "5m" (by decide)
